import Mathlib

/-!
Shallow embedding of the Lightspeed token service
(`src/services/token-scheduler.ts`: classes `TokenScheduler` and
`LightspeedTokenService`).  Times are modelled as integer milliseconds
since the epoch; a JavaScript `Date` that may be invalid (`NaN`) is the
type `JsTime`.  The AES-256-CBC cipher provided by the external `crypto`
module is modelled as an abstract `Cipher` whose decryption inverts
encryption; everything around it (hex encoding, the IV prefix, the `:`
separator, key checks) is translated from the source.
-/

namespace LightspeedTokenService

/-- A JavaScript `Date` value: either a valid instant (ms since epoch)
or an invalid date (internal time value `NaN`). -/
inductive JsTime where
  | invalid : JsTime
  | valid (ms : Int) : JsTime
  deriving Repr, DecidableEq

/-- The persisted token record (interface `LightspeedToken`,
token-scheduler.ts lines 217-223).  `accessToken` / `refreshToken` hold
the ciphertext as stored in the database; `expiresAt` is nullable. -/
structure LightspeedToken where
  id : Nat
  accessToken : String
  refreshToken : String
  expiresAt : Option JsTime
  updatedAt : Int
  deriving Repr, DecidableEq

/-- Raw JSON body of a provider token response: each field may be
absent (`undefined`). -/
structure RawTokenData where
  access_token : Option String
  refresh_token : Option String
  expires_in : Option Int
  deriving Repr, DecidableEq

/-- Checked token response (interface `LightspeedTokenResponse`,
lines 225-229): all fields present. -/
structure LightspeedTokenResponse where
  access_token : String
  refresh_token : String
  expires_in : Int
  deriving Repr, DecidableEq

/-- Outcome of the `fetch` to the provider token endpoint: a 2xx
response with a JSON body, a non-success status with an error text, or
a thrown transport error. -/
inductive HttpResult where
  | ok (data : RawTokenData)
  | httpError (status : Nat) (errorText : String)
  | networkError (msg : String)
  deriving Repr, DecidableEq

/-- JavaScript number that may be `NaN` (used for `expiresIn` minutes in
`TokenStatus`, which is `NaN` when the stored expiry date is invalid). -/
inductive JsNum where
  | nan : JsNum
  | int (n : Int) : JsNum
  deriving Repr, DecidableEq

/-- Derived monitoring record (interface `TokenStatus`, lines 232-238). -/
structure TokenStatus where
  isValid : Bool
  expiresAt : Option JsTime
  expiresIn : JsNum
  needsRefresh : Bool
  lastUpdated : Int
  deriving Repr, DecidableEq

/-- `REFRESH_BUFFER_MINUTES = 10` (line 241). -/
def REFRESH_BUFFER_MINUTES : Int := 10

/-- JavaScript truthiness of a possibly-absent string (`undefined` and
`""` are falsy). -/
def jsTruthyStr : Option String → Bool
  | none => false
  | some s => decide (s ≠ "")

/-- JavaScript `a || d` for a possibly-absent number (`undefined` and
`0` are falsy). -/
def jsOrInt (a : Option Int) (d : Int) : Int :=
  match a with
  | none => d
  | some n => if n = 0 then d else n

/-- `expiresAt.setSeconds(expiresAt.getSeconds() + expiresIn)` on a
fresh `new Date()`: adds `expiresIn` seconds to `now`; with `expiresIn`
absent (`undefined`) the arithmetic is `NaN` and the date becomes
invalid (lines 370-371 and 422-423). -/
def jsAddSeconds (now : Int) (expiresIn : Option Int) : JsTime :=
  match expiresIn with
  | none => JsTime.invalid
  | some s => JsTime.valid (now + s * 1000)

/-- `needsRefresh(tokens)` (lines 257-269): true when `expiresAt` is
null; otherwise `now >= expiresAt - 10 minutes`.  A comparison against
an invalid date is a comparison with `NaN`, hence false. -/
def needsRefresh (now : Int) (tokens : LightspeedToken) : Bool :=
  match tokens.expiresAt with
  | none => true
  | some JsTime.invalid => false
  | some (JsTime.valid e) => decide (now ≥ e - REFRESH_BUFFER_MINUTES * 60 * 1000)

/-! ## Hex encoding (Buffer `hex` codec) -/

/-- Lowercase hex digit for a value `< 16` (as produced by
`Buffer.toString("hex")` / the cipher's `"hex"` output encoding). -/
def hexDigitChar (n : Nat) : Char :=
  if n < 10 then Char.ofNat (48 + n) else Char.ofNat (87 + n)

/-- Hex characters of one byte (two lowercase digits). -/
def byteToHexChars (b : Nat) : List Char :=
  [hexDigitChar (b / 16), hexDigitChar (b % 16)]

/-- `Buffer.toString("hex")` over a byte list. -/
def bytesToHexChars (bs : List Nat) : List Char :=
  bs.flatMap byteToHexChars

/-- Value of a hex character, accepting both cases (Node's hex codec). -/
def hexVal (c : Char) : Option Nat :=
  if 48 ≤ c.toNat ∧ c.toNat ≤ 57 then some (c.toNat - 48)
  else if 97 ≤ c.toNat ∧ c.toNat ≤ 102 then some (c.toNat - 87)
  else if 65 ≤ c.toNat ∧ c.toNat ≤ 70 then some (c.toNat - 55)
  else none

/-- `Buffer.from(str, "hex")`: decodes pairs of hex digits, stopping at
the first invalid pair or dangling digit (Node truncates there). -/
def jsHexDecode : List Char → List Nat
  | c1 :: c2 :: rest =>
    match hexVal c1, hexVal c2 with
    | some h, some l => (h * 16 + l) :: jsHexDecode rest
    | _, _ => []
  | _ => []

/-- JavaScript `String.prototype.split(":")`, as a list of fields. -/
def splitOnColon : List Char → List (List Char)
  | [] => [[]]
  | c :: rest =>
    if c = ':' then [] :: splitOnColon rest
    else
      match splitOnColon rest with
      | [] => [[c]]
      | h :: t => (c :: h) :: t

/-! ## The external cipher

`crypto.createCipheriv("aes-256-cbc", key, iv)` together with the utf8
input codec is external code; it is modelled as an abstract cipher
producing a byte list, with decryption inverting encryption. -/

/-- Abstract model of the external AES-256-CBC cipher (including the
utf8 text codec of `cipher.update(text, "utf8", "hex")`): `enc` maps a
key, an IV and a plaintext string to ciphertext bytes, `dec` inverts
it, and ciphertext entries are bytes (`< 256`). -/
structure Cipher where
  enc : List Nat → List Nat → String → List Nat
  dec : List Nat → List Nat → List Nat → String
  dec_enc : ∀ k iv t, dec k iv (enc k iv t) = t
  enc_byte : ∀ k iv t, ∀ b ∈ enc k iv t, b < 256

/-- `encrypt(text)` (lines 274-297): requires the key env var, decodes
it from hex, requires exactly 32 bytes, then returns
`iv.toString("hex") + ":" + encrypted`.  The fresh random IV of
`crypto.randomBytes(16)` is passed explicitly.  Errors model thrown
exceptions. -/
def encrypt (key : Option String) (c : Cipher) (iv : List Nat) (text : String) :
    Except String String :=
  match key with
  | none => Except.error "TOKEN_ENCRYPTION_KEY environment variable is required"
  | some k =>
    let keyBuffer := jsHexDecode k.data
    if keyBuffer.length ≠ 32 then
      Except.error "Invalid encryption key length: expected 32 bytes"
    else
      Except.ok (String.mk (bytesToHexChars iv ++ ':' :: bytesToHexChars (c.enc keyBuffer iv text)))

/-- `decrypt(encryptedText)` (lines 302-319): requires the key env var,
splits on `":"` taking the first two fields (destructuring; a missing
second field is `undefined` and `Buffer.from(undefined, "hex")`
throws), hex-decodes IV and payload, and runs the decipher, which
throws when the key is not 32 bytes or the IV is not 16 bytes. -/
def decrypt (key : Option String) (c : Cipher) (encryptedText : String) :
    Except String String :=
  match key with
  | none => Except.error "TOKEN_ENCRYPTION_KEY environment variable is required"
  | some k =>
    match splitOnColon encryptedText.data with
    | ivHex :: encrypted :: _ =>
      let keyBuffer := jsHexDecode k.data
      let iv := jsHexDecode ivHex
      if keyBuffer.length ≠ 32 then Except.error "Invalid key length"
      else if iv.length ≠ 16 then Except.error "Invalid initialization vector"
      else Except.ok (c.dec keyBuffer iv (jsHexDecode encrypted))
    | _ => Except.error "TypeError: encrypted part is undefined"

/-! ## Service operations

I/O is made explicit: the current time, the random IVs, the HTTP
outcome and the id assigned by the database on insert are parameters;
storage is the list of rows of the `lightspeed_tokens` table
(`findFirst` is `head?`); console output is returned as a log list;
thrown exceptions are `Except.error`. -/

/-- OAuth client configuration from the environment
(`LIGHTSPEED_CLIENT_ID` / `LIGHTSPEED_CLIENT_SECRET`). -/
structure OAuthConfig where
  clientId : Option String
  clientSecret : Option String
  deriving Repr, DecidableEq

/-- JSON body POSTed to the token endpoint by `requestTokenRefresh`
(lines 656-661). -/
structure ProviderCall where
  refresh_token : String
  client_id : String
  client_secret : String
  grant_type : String
  deriving Repr, DecidableEq

/-- JSON body POSTed to the token endpoint by
`exchangeAuthCodeForTokens` (lines 581-586). -/
structure AuthCodeCall where
  grant_type : String
  client_id : String
  client_secret : String
  code : String
  deriving Repr, DecidableEq

/-- `s.substring(0, 20)`. -/
def first20 (s : String) : String := String.mk (s.data.take 20)

/-- Abstract stand-in for `Date.prototype.toISOString` on a valid date
(the exact rendering is irrelevant here; calling it on an invalid date
throws, which is modelled at the call sites). -/
def isoString (ms : Int) : String := "iso@" ++ toString ms

/-- Rendering of a possibly-absent number by `console.log`. -/
def jsNumStr : Option Int → String
  | none => "undefined"
  | some n => toString n

/-- Result of `requestTokenRefresh`: provider calls made, console
output, and either a thrown error or the returned value. -/
structure RefreshRequestOutcome where
  calls : List ProviderCall
  logs : List String
  result : Except String (Option RawTokenData)

/-- Result of `exchangeAuthCodeForTokens`. -/
structure AuthCodeOutcome where
  calls : List AuthCodeCall
  logs : List String
  result : Except String (Option LightspeedTokenResponse)

/-- Result of `insertTokens` / `setTokensManually`: console output, the
table after the call (mutations survive a later throw), and either a
thrown error or the created record. -/
structure StoreOutcome where
  logs : List String
  storage : List LightspeedToken
  result : Except String LightspeedToken

/-- Result of `updateTokens`. -/
structure UpdateOutcome where
  logs : List String
  storage : List LightspeedToken
  result : Except String Unit

/-- Result of `refreshTokens` (which catches all exceptions). -/
structure RefreshOutcome where
  calls : List ProviderCall
  logs : List String
  result : Option LightspeedToken
  storage : List LightspeedToken

/-- Result of `getValidAccessToken` (decryption errors propagate). -/
structure AccessOutcome where
  calls : List ProviderCall
  result : Except String (Option String)
  storage : List LightspeedToken

/-- Result of `loginWithAuthCode` (which catches all exceptions). -/
structure LoginOutcome where
  calls : List AuthCodeCall
  result : Option LightspeedToken
  storage : List LightspeedToken

/-- Result of the scheduler's `checkAndRefreshTokens`. -/
structure SchedulerOutcome where
  calls : List ProviderCall
  logs : List String
  storage : List LightspeedToken
  lastTokenCheckHadTokens : Bool

/-- `requestTokenRefresh(refreshToken)` (lines 632-699).  Throws before
any request when client credentials are missing.  On a non-success
status or a transport error it logs the failure — including the full
refresh token — and returns null.  On a 2xx response it returns the
parsed body unconditionally: when a token field is missing it only
logs `Invalid response - missing tokens` but still returns the data. -/
def requestTokenRefresh (cfg : OAuthConfig) (http : HttpResult) (refreshToken : String) :
    RefreshRequestOutcome :=
  match cfg.clientId, cfg.clientSecret with
  | some clientId, some clientSecret =>
    let logs0 := ["🔄 Requesting token refresh from Lightspeed...",
                  "  Using refresh token (first 20 chars): " ++ first20 refreshToken ++ "..."]
    let call : ProviderCall :=
      { refresh_token := refreshToken, client_id := clientId,
        client_secret := clientSecret, grant_type := "refresh_token" }
    match http with
    | HttpResult.httpError status errorText =>
      { calls := [call],
        logs := logs0 ++ ["❌ Token refresh failed: " ++ toString status ++ " " ++ errorText,
                          "🚨 The refresh token that failed was: " ++ refreshToken],
        result := Except.ok none }
    | HttpResult.networkError msg =>
      { calls := [call],
        logs := logs0 ++ ["❌ Network error during token refresh: " ++ msg,
                          "🚨 The refresh token that caused the error was: " ++ refreshToken],
        result := Except.ok none }
    | HttpResult.ok data =>
      if jsTruthyStr data.access_token && jsTruthyStr data.refresh_token then
        { calls := [call],
          logs := logs0 ++ ["✅ Tokens refreshed successfully from Lightspeed",
            "  New Access Token (first 20): " ++ first20 (data.access_token.getD "") ++ "...",
            "  New Refresh Token (first 20): " ++ first20 (data.refresh_token.getD "") ++ "..."],
          result := Except.ok (some data) }
      else
        { calls := [call],
          logs := logs0 ++ ["❌ Invalid response - missing tokens"],
          result := Except.ok (some data) }
  | _, _ =>
    { calls := [], logs := [],
      result := Except.error "Lightspeed client credentials not configured" }

/-- JavaScript `\s` for the characters relevant here. -/
def jsIsSpace (ch : Char) : Bool :=
  ch = ' ' || ch = '\t' || ch = '\n' || ch = '\r' || ch = '\x0b' || ch = '\x0c'

/-- `authCode.replace(/\s/g, "").trim()` (line 571). -/
def cleanAuthCode (authCode : String) : String :=
  String.mk (authCode.data.filter (fun ch => !jsIsSpace ch))

/-- `exchangeAuthCodeForTokens(authCode)` (lines 567-627).  Throws when
client credentials are missing.  Unlike `requestTokenRefresh` it
returns null when a token field is missing and defaults `expires_in`
to 3600.  (The request-body dump logged at line 590 is omitted from
the log model.) -/
def exchangeAuthCodeForTokens (cfg : OAuthConfig) (http : HttpResult) (authCode : String) :
    AuthCodeOutcome :=
  let cleaned := cleanAuthCode authCode
  match cfg.clientId, cfg.clientSecret with
  | some clientId, some clientSecret =>
    let call : AuthCodeCall :=
      { grant_type := "authorization_code", client_id := clientId,
        client_secret := clientSecret, code := cleaned }
    let logs0 := ["🌐 Making token exchange request to Lightspeed...",
                  "  Client ID: " ++ clientId]
    match http with
    | HttpResult.httpError status errorText =>
      { calls := [call],
        logs := logs0 ++ ["❌ Token exchange failed: " ++ toString status ++ " " ++ errorText],
        result := Except.ok none }
    | HttpResult.networkError msg =>
      { calls := [call],
        logs := logs0 ++ ["❌ Network error during token exchange: " ++ msg],
        result := Except.ok none }
    | HttpResult.ok data =>
      if jsTruthyStr data.access_token && jsTruthyStr data.refresh_token then
        { calls := [call],
          logs := logs0 ++ ["✅ Token exchange successful"],
          result := Except.ok (some
            { access_token := data.access_token.getD "",
              refresh_token := data.refresh_token.getD "",
              expires_in := jsOrInt data.expires_in 3600 }) }
      else
        { calls := [call],
          logs := logs0 ++ ["❌ Invalid response - missing tokens"],
          result := Except.ok none }
  | _, _ =>
    { calls := [], logs := [],
      result := Except.error
        "LIGHTSPEED_CLIENT_ID and LIGHTSPEED_CLIENT_SECRET environment variables are required" }

/-- Recovery lines logged by the catch blocks of `insertTokens` and
`updateTokens` (lines 392-395 and 439-442): the full plaintext tokens. -/
def recoveryLogs (accessToken refreshToken : String) : List String :=
  ["❌ Failed to insert or update tokens in database:",
   "🚨 RECOVERY INFO - Save these tokens:",
   "  LIGHTSPEED_REFRESH_TOKEN=" ++ refreshToken,
   "  Access token was: " ++ accessToken]

/-- `insertTokens(accessToken, refreshToken, expiresIn)`
(lines 353-398).  Token arguments are JS values that may be
`undefined` (then `.substring` throws before anything is stored).
Encrypts both tokens inside the try block, appends the new row, then
logs the expiry with `toISOString`, which throws on an invalid date —
after the row was already created. -/
def insertTokens (key : Option String) (c : Cipher) (ivA ivR : List Nat) (now : Int)
    (accessToken refreshToken : Option String) (expiresIn : Option Int)
    (storage : List LightspeedToken) (newId : Nat) : StoreOutcome :=
  match accessToken with
  | none =>
    { logs := ["🔐 Received tokens for storage:"], storage := storage,
      result := Except.error "TypeError: undefined is not an object" }
  | some a =>
    match refreshToken with
    | none =>
      { logs := ["🔐 Received tokens for storage:",
                 "  Access Token (first 20 chars): " ++ first20 a ++ "..."],
        storage := storage,
        result := Except.error "TypeError: undefined is not an object" }
    | some r =>
      let logs0 := ["🔐 Received tokens for storage:",
                    "  Access Token (first 20 chars): " ++ first20 a ++ "...",
                    "  Refresh Token (first 20 chars): " ++ first20 r ++ "...",
                    "  Expires In: " ++ jsNumStr expiresIn ++ " seconds"]
      let expiresAt := jsAddSeconds now expiresIn
      match encrypt key c ivA a with
      | Except.error e =>
        { logs := logs0 ++ recoveryLogs a r, storage := storage, result := Except.error e }
      | Except.ok ea =>
        match encrypt key c ivR r with
        | Except.error e =>
          { logs := logs0 ++ recoveryLogs a r, storage := storage, result := Except.error e }
        | Except.ok er =>
          let record : LightspeedToken :=
            { id := newId, accessToken := ea, refreshToken := er,
              expiresAt := some expiresAt, updatedAt := now }
          let storage1 := storage ++ [record]
          match expiresAt with
          | JsTime.valid ms =>
            { logs := logs0 ++ ["✅ New tokens inserted successfully",
                                "  Database ID: " ++ toString newId,
                                "  Expires At: " ++ isoString ms],
              storage := storage1, result := Except.ok record }
          | JsTime.invalid =>
            { logs := logs0 ++ ["✅ New tokens inserted successfully",
                                "  Database ID: " ++ toString newId] ++ recoveryLogs a r,
              storage := storage1,
              result := Except.error "RangeError: Invalid time value" }

/-- `updateTokens(id, accessToken, refreshToken, expiresIn)`
(lines 403-445).  Overwrites the row with the given id in place (the
database throws when no such row exists); as in `insertTokens` the
final `toISOString` throws on an invalid date after the row was
already overwritten. -/
def updateTokens (key : Option String) (c : Cipher) (ivA ivR : List Nat) (now : Int)
    (id : Nat) (accessToken refreshToken : Option String) (expiresIn : Option Int)
    (storage : List LightspeedToken) : UpdateOutcome :=
  match accessToken with
  | none =>
    { logs := ["🔄 Updating tokens in database:", "  Record ID: " ++ toString id],
      storage := storage,
      result := Except.error "TypeError: undefined is not an object" }
  | some a =>
    match refreshToken with
    | none =>
      { logs := ["🔄 Updating tokens in database:", "  Record ID: " ++ toString id,
                 "  Access Token (first 20 chars): " ++ first20 a ++ "..."],
        storage := storage,
        result := Except.error "TypeError: undefined is not an object" }
    | some r =>
      let logs0 := ["🔄 Updating tokens in database:", "  Record ID: " ++ toString id,
                    "  Access Token (first 20 chars): " ++ first20 a ++ "...",
                    "  Refresh Token (first 20 chars): " ++ first20 r ++ "...",
                    "  Expires In: " ++ jsNumStr expiresIn ++ " seconds"]
      let expiresAt := jsAddSeconds now expiresIn
      match encrypt key c ivA a with
      | Except.error e =>
        { logs := logs0 ++ recoveryLogs a r, storage := storage, result := Except.error e }
      | Except.ok ea =>
        match encrypt key c ivR r with
        | Except.error e =>
          { logs := logs0 ++ recoveryLogs a r, storage := storage, result := Except.error e }
        | Except.ok er =>
          if storage.any (fun rec => rec.id = id) then
            let storage1 := storage.map (fun rec =>
              if rec.id = id then
                { id := id, accessToken := ea, refreshToken := er,
                  expiresAt := some expiresAt, updatedAt := now }
              else rec)
            match expiresAt with
            | JsTime.valid ms =>
              { logs := logs0 ++ ["✅ Tokens updated successfully",
                                  "  Expires At: " ++ isoString ms],
                storage := storage1, result := Except.ok () }
            | JsTime.invalid =>
              { logs := logs0 ++ recoveryLogs a r, storage := storage1,
                result := Except.error "RangeError: Invalid time value" }
          else
            { logs := logs0 ++ recoveryLogs a r, storage := storage,
              result := Except.error "Record to update not found" }

/-- `refreshTokens(refreshToken)` (lines 450-485): performs the
provider call first; on a null response returns null without touching
storage; otherwise inserts when no record exists, else updates the
latest record in place and re-reads it.  Every exception is caught and
converted to null. -/
def refreshTokens (cfg : OAuthConfig) (key : Option String) (c : Cipher)
    (ivA ivR : List Nat) (now : Int) (http : HttpResult)
    (storage : List LightspeedToken) (newId : Nat) (refreshToken : String) :
    RefreshOutcome :=
  let req := requestTokenRefresh cfg http refreshToken
  match req.result with
  | Except.error e =>
    { calls := req.calls,
      logs := req.logs ++ ["Error refreshing Lightspeed tokens: " ++ e],
      result := none, storage := storage }
  | Except.ok none =>
    { calls := req.calls, logs := req.logs, result := none, storage := storage }
  | Except.ok (some response) =>
    match storage.head? with
    | none =>
      let ins := insertTokens key c ivA ivR now
        response.access_token response.refresh_token response.expires_in storage newId
      match ins.result with
      | Except.ok record =>
        { calls := req.calls, logs := req.logs ++ ins.logs,
          result := some record, storage := ins.storage }
      | Except.error e =>
        { calls := req.calls,
          logs := req.logs ++ ins.logs ++ ["Error refreshing Lightspeed tokens: " ++ e],
          result := none, storage := ins.storage }
    | some latestTokens =>
      let upd := updateTokens key c ivA ivR now latestTokens.id
        response.access_token response.refresh_token response.expires_in storage
      match upd.result with
      | Except.ok _ =>
        { calls := req.calls, logs := req.logs ++ upd.logs,
          result := upd.storage.head?, storage := upd.storage }
      | Except.error e =>
        { calls := req.calls,
          logs := req.logs ++ upd.logs ++ ["Error refreshing Lightspeed tokens: " ++ e],
          result := none, storage := upd.storage }

/-- `getTokenStatus()` (lines 490-515): computed from `expiresAt` and
`updatedAt` of the latest record only; no decryption is involved.
Comparisons and arithmetic on an invalid date follow `NaN` semantics. -/
def getTokenStatus (now : Int) (storage : List LightspeedToken) : Option TokenStatus :=
  match storage.head? with
  | none => none
  | some tokens =>
    let isValid := match tokens.expiresAt with
      | some (JsTime.valid e) => decide (now < e)
      | some JsTime.invalid => false
      | none => false
    let expiresIn := match tokens.expiresAt with
      | some (JsTime.valid e) => JsNum.int (max 0 (Int.fdiv (e - now) 60000))
      | some JsTime.invalid => JsNum.nan
      | none => JsNum.int 0
    some { isValid := isValid, expiresAt := tokens.expiresAt, expiresIn := expiresIn,
           needsRefresh := needsRefresh now tokens, lastUpdated := tokens.updatedAt }

/-- `getValidAccessToken()` (lines 324-348): fetches the latest record;
when it needs refresh, decrypts the stored refresh token and passes the
plaintext to `refreshTokens`, then decrypts the refreshed access token;
otherwise decrypts and returns the current access token.  Decryption
errors propagate (there is no try block here). -/
def getValidAccessToken (cfg : OAuthConfig) (key : Option String) (c : Cipher)
    (ivA ivR : List Nat) (now : Int) (http : HttpResult)
    (storage : List LightspeedToken) (newId : Nat) : AccessOutcome :=
  match storage.head? with
  | none => { calls := [], result := Except.ok none, storage := storage }
  | some tokens =>
    if needsRefresh now tokens then
      match decrypt key c tokens.refreshToken with
      | Except.error e => { calls := [], result := Except.error e, storage := storage }
      | Except.ok plain =>
        let out := refreshTokens cfg key c ivA ivR now http storage newId plain
        match out.result with
        | some refreshed =>
          match decrypt key c refreshed.accessToken with
          | Except.error e =>
            { calls := out.calls, result := Except.error e, storage := out.storage }
          | Except.ok access =>
            { calls := out.calls, result := Except.ok (some access), storage := out.storage }
        | none => { calls := out.calls, result := Except.ok none, storage := out.storage }
    else
      match decrypt key c tokens.accessToken with
      | Except.error e => { calls := [], result := Except.error e, storage := storage }
      | Except.ok access =>
        { calls := [], result := Except.ok (some access), storage := storage }

/-- `loginWithAuthCode(authCode)` (lines 542-562): exchanges the code
and then always inserts a fresh record (never updates), catching every
exception. -/
def loginWithAuthCode (cfg : OAuthConfig) (key : Option String) (c : Cipher)
    (ivA ivR : List Nat) (now : Int) (http : HttpResult) (authCode : String)
    (storage : List LightspeedToken) (newId : Nat) : LoginOutcome :=
  let ex := exchangeAuthCodeForTokens cfg http authCode
  match ex.result with
  | Except.error _ => { calls := ex.calls, result := none, storage := storage }
  | Except.ok none => { calls := ex.calls, result := none, storage := storage }
  | Except.ok (some tokenResponse) =>
    let ins := insertTokens key c ivA ivR now
      (some tokenResponse.access_token) (some tokenResponse.refresh_token)
      (some tokenResponse.expires_in) storage newId
    match ins.result with
    | Except.ok stored => { calls := ex.calls, result := some stored, storage := ins.storage }
    | Except.error _ => { calls := ex.calls, result := none, storage := ins.storage }

/-- `setTokensManually(accessToken, refreshToken, expiresInMinutes)`
(lines 891-913): throws on blank tokens, defaults the expiry to 60
minutes (`expiresInMinutes || 60`), and always inserts. -/
def setTokensManually (key : Option String) (c : Cipher) (ivA ivR : List Nat) (now : Int)
    (accessToken refreshToken : String) (expiresInMinutes : Option Int)
    (storage : List LightspeedToken) (newId : Nat) : StoreOutcome :=
  if accessToken.trim = "" || refreshToken.trim = "" then
    { logs := [], storage := storage,
      result := Except.error "Both access token and refresh token are required" }
  else
    let expiresIn := jsOrInt expiresInMinutes 60 * 60
    let ins := insertTokens key c ivA ivR now (some accessToken) (some refreshToken)
      (some expiresIn) storage newId
    { logs := ["🔐 Storing manually provided tokens...",
               "   Access Token (first 20 chars): " ++ first20 accessToken ++ "...",
               "   Refresh Token (first 20 chars): " ++ first20 refreshToken ++ "...",
               "   Expires in: " ++ toString (jsOrInt expiresInMinutes 60) ++ " minutes"]
        ++ ins.logs,
      storage := ins.storage, result := ins.result }

/-- `clearTokens()` (lines 535-537): `deleteMany` of every row. -/
def clearTokens (_storage : List LightspeedToken) : List LightspeedToken := []

/-- The scheduler's 5-minute task `checkAndRefreshTokens`
(token-scheduler.ts lines 97-141).  Edge-triggered notices via the
`lastTokenCheckHadTokens` flag; when a refresh is needed it calls
`refreshTokens(tokens.refreshToken)` — passing the stored ciphertext,
with no decryption (line 120).  (The post-success status dump of
lines 126-130 is omitted from the log model.) -/
def checkAndRefreshTokens (cfg : OAuthConfig) (key : Option String) (c : Cipher)
    (ivA ivR : List Nat) (now : Int) (http : HttpResult)
    (storage : List LightspeedToken) (newId : Nat)
    (lastTokenCheckHadTokens : Bool) : SchedulerOutcome :=
  match storage.head? with
  | none =>
    if lastTokenCheckHadTokens then
      { calls := [],
        logs := ["🔍 Tokens were removed - service is now waiting for new tokens",
                 "💡 To reconfigure tokens, use: bun run tokens login <authorization_code>"],
        storage := storage, lastTokenCheckHadTokens := false }
    else
      { calls := [], logs := [], storage := storage, lastTokenCheckHadTokens := false }
  | some tokens =>
    let logsDetect := if lastTokenCheckHadTokens then ([] : List String)
      else ["🎉 Tokens detected! Automatic token management is now active"]
    if needsRefresh now tokens then
      let out := refreshTokens cfg key c ivA ivR now http storage newId tokens.refreshToken
      match out.result with
      | some _ =>
        { calls := out.calls,
          logs := logsDetect ++ ["🔄 Tokens need refresh - attempting automatic refresh..."]
            ++ out.logs ++ ["✅ Tokens automatically refreshed successfully"],
          storage := out.storage, lastTokenCheckHadTokens := true }
      | none =>
        { calls := out.calls,
          logs := logsDetect ++ ["🔄 Tokens need refresh - attempting automatic refresh..."]
            ++ out.logs ++ ["❌ Automatic token refresh failed",
                            "🚨 Manual intervention may be required"],
          storage := out.storage, lastTokenCheckHadTokens := true }
    else
      { calls := [],
        logs := logsDetect ++ ["✅ Tokens are still valid - no refresh needed"],
        storage := storage, lastTokenCheckHadTokens := true }

/-! ## A concrete cipher instance and fixtures

Concrete inputs used to evaluate the model: an executable invertible
cipher standing in for AES-256-CBC (each character is emitted as its
four code-point bytes), a 32-byte key, 16-byte IVs and a stored
record whose fields are genuine ciphertexts of known plaintexts. -/

/-- Four bytes of a character's code point (big-endian). -/
def encodeChar (ch : Char) : List Nat :=
  [ch.toNat / 16777216 % 256, ch.toNat / 65536 % 256, ch.toNat / 256 % 256, ch.toNat % 256]

/-- Inverse of `encodeChar`, consuming four bytes per character. -/
def decodeChars : List Nat → List Char
  | a :: b :: cc :: d :: rest =>
    Char.ofNat (a * 16777216 + b * 65536 + cc * 256 + d) :: decodeChars rest
  | _ => []

/-- An executable `Cipher` instance (ignores key and IV; the claims
proved against the abstract `Cipher` hold for any instance, this one
is only used to evaluate the model on concrete inputs). -/
def demoCipher : Cipher where
  enc := fun _ _ t => t.data.flatMap encodeChar
  dec := fun _ _ bs => String.mk (decodeChars bs)
  dec_enc := by
    intro _ _ t
    have h : ∀ l : List Char, decodeChars (l.flatMap encodeChar) = l := by
      intro l
      induction l with
      | nil => rfl
      | cons ch rest ih =>
        have hlt : ch.toNat < 4294967296 := by
          have := ch.val.toNat_lt
          simpa [Char.toNat] using this
        show decodeChars (encodeChar ch ++ rest.flatMap encodeChar) = ch :: rest
        rw [encodeChar]
        show Char.ofNat (ch.toNat / 16777216 % 256 * 16777216 + ch.toNat / 65536 % 256 * 65536
          + ch.toNat / 256 % 256 * 256 + ch.toNat % 256) :: decodeChars (rest.flatMap encodeChar)
          = ch :: rest
        have harith : ch.toNat / 16777216 % 256 * 16777216 + ch.toNat / 65536 % 256 * 65536
            + ch.toNat / 256 % 256 * 256 + ch.toNat % 256 = ch.toNat := by omega
        rw [harith, Char.ofNat_toNat, ih]
    show String.mk (decodeChars (t.data.flatMap encodeChar)) = t
    rw [h]
  enc_byte := by
    intro _ _ t b hb
    simp only [List.mem_flatMap] at hb
    obtain ⟨ch, _, hmem⟩ := hb
    simp only [encodeChar, List.mem_cons, List.not_mem_nil, or_false] at hmem
    rcases hmem with h | h | h | h <;> omega

/-- 64 hex zeros: a well-formed 32-byte encryption key. -/
def demoKeyHex : String :=
  "0000000000000000000000000000000000000000000000000000000000000000"

/-- The configured key environment variable. -/
def demoKey : Option String := some demoKeyHex

/-- A 16-byte IV. -/
def demoIv1 : List Nat := List.replicate 16 0

/-- A second, distinct 16-byte IV. -/
def demoIv2 : List Nat := 1 :: List.replicate 15 0

/-- OAuth client credentials present in the environment. -/
def demoCfg : OAuthConfig :=
  { clientId := some "client-id", clientSecret := some "client-secret" }

/-- A known refresh-token plaintext (longer than 20 characters). -/
def demoPlainRefresh : String := "refresh-plain-ABCDEFGHIJKLMNOP"

/-- A known access-token plaintext. -/
def demoPlainAccess : String := "access-plain-ABCDEFGHIJKLMNOPQ"

/-- Ciphertext of `demoPlainRefresh` under `demoKey` / `demoIv1`. -/
def demoCipherRefresh : String :=
  match encrypt demoKey demoCipher demoIv1 demoPlainRefresh with
  | Except.ok s => s
  | Except.error _ => ""

/-- Ciphertext of `demoPlainAccess` under `demoKey` / `demoIv2`. -/
def demoCipherAccess : String :=
  match encrypt demoKey demoCipher demoIv2 demoPlainAccess with
  | Except.ok s => s
  | Except.error _ => ""

/-- A stored record that needs refresh at `now = 0` (its expiry is the
epoch itself), with genuine ciphertext fields. -/
def demoRecord : LightspeedToken :=
  { id := 1, accessToken := demoCipherAccess, refreshToken := demoCipherRefresh,
    expiresAt := some (JsTime.valid 0), updatedAt := -1000 }

/-- The row written by a successful refresh at time `now`: ciphertexts
`ea` / `er` and expiry `now + e` seconds. -/
def refreshedRecord (id : Nat) (ea er : String) (now e : Int) : LightspeedToken :=
  { id := id, accessToken := ea, refreshToken := er,
    expiresAt := some (JsTime.valid (now + e * 1000)), updatedAt := now }

/-- A record agreeing with `demoRecord` on `expiresAt` and `updatedAt`
but with malformed ciphertext fields. -/
def demoRecord2 : LightspeedToken :=
  { id := 1, accessToken := "not-even-hex", refreshToken := "",
    expiresAt := some (JsTime.valid 0), updatedAt := -1000 }

/-- A well-formed raw provider response. -/
def demoRaw : RawTokenData :=
  { access_token := some "ACCESS-TOKEN-FROM-PROVIDER-1",
    refresh_token := some "REFRESH-TOKEN-FROM-PROVIDER",
    expires_in := some 3600 }

/-- A 2xx provider response missing the `access_token` field. -/
def rawMissingAccess : RawTokenData :=
  { access_token := none,
    refresh_token := some "REFRESH-TOKEN-FROM-PROVIDER",
    expires_in := some 3600 }

/-- A 2xx provider response with both tokens but no `expires_in`. -/
def rawNoExpiry : RawTokenData :=
  { access_token := some "ACCESS-TOKEN-FROM-PROVIDER-1",
    refresh_token := some "REFRESH-TOKEN-FROM-PROVIDER",
    expires_in := none }

/-- One sliding window of the secret-leak check: a character list is
harmless when it is shorter than 24 characters or its first 24
characters contain a space (24 = the 20-character prefix plus `"..."`
plus one: no space-free secret of at least 24 characters can fit). -/
def windowOk (l : List Char) : Bool :=
  decide (l.length < 24) || decide (' ' ∈ l.take 24)

/-- Every 24-character window of the list contains a space; a list with
this property cannot contain a space-free run of 24 characters or more. -/
def slidingHasSpace : List Char → Bool
  | [] => true
  | c :: rest => windowOk (c :: rest) && slidingHasSpace rest

/-! ## Helper lemmas -/

theorem hexVal_hexDigitChar (n : Nat) (h : n < 16) : hexVal (hexDigitChar n) = some n := by
  interval_cases n <;> decide

theorem hexDigitChar_ne_colon (n : Nat) (h : n < 16) : hexDigitChar n ≠ ':' := by
  interval_cases n <;> decide

theorem jsHexDecode_bytesToHexChars (bs : List Nat) (h : ∀ b ∈ bs, b < 256) :
    jsHexDecode (bytesToHexChars bs) = bs := by
  induction bs with
  | nil => rfl
  | cons b rest ih =>
    have hb : b < 256 := h b (List.mem_cons_self b rest)
    have h1 : b / 16 < 16 := by omega
    have h2 : b % 16 < 16 := by omega
    show jsHexDecode (byteToHexChars b ++ bytesToHexChars rest) = b :: rest
    rw [byteToHexChars]
    show jsHexDecode (hexDigitChar (b / 16) :: hexDigitChar (b % 16) :: bytesToHexChars rest)
      = b :: rest
    rw [jsHexDecode, hexVal_hexDigitChar _ h1, hexVal_hexDigitChar _ h2]
    show (b / 16 * 16 + b % 16) :: jsHexDecode (bytesToHexChars rest) = b :: rest
    rw [ih (fun x hx => h x (List.mem_cons_of_mem b hx))]
    have hdm : b / 16 * 16 + b % 16 = b := by omega
    rw [hdm]

theorem bytesToHexChars_inj (bs1 bs2 : List Nat)
    (h1 : ∀ b ∈ bs1, b < 256) (h2 : ∀ b ∈ bs2, b < 256)
    (he : bytesToHexChars bs1 = bytesToHexChars bs2) : bs1 = bs2 := by
  rw [← jsHexDecode_bytesToHexChars bs1 h1, ← jsHexDecode_bytesToHexChars bs2 h2, he]

theorem colon_not_mem_bytesToHexChars (bs : List Nat) (h : ∀ b ∈ bs, b < 256) :
    ':' ∉ bytesToHexChars bs := by
  intro hmem
  simp only [bytesToHexChars, List.mem_flatMap] at hmem
  obtain ⟨b, hb, hc⟩ := hmem
  have hblt := h b hb
  have h1 : b / 16 < 16 := by omega
  have h2 : b % 16 < 16 := by omega
  simp only [byteToHexChars, List.mem_cons, List.not_mem_nil, or_false] at hc
  rcases hc with hc | hc
  · exact hexDigitChar_ne_colon _ h1 hc.symm
  · exact hexDigitChar_ne_colon _ h2 hc.symm

theorem splitOnColon_of_colon_not_mem (l : List Char) (h : ':' ∉ l) :
    splitOnColon l = [l] := by
  induction l with
  | nil => rfl
  | cons c rest ih =>
    have hc : c ≠ ':' := fun hh => h (hh ▸ List.mem_cons_self c rest)
    have hrest : ':' ∉ rest := fun hh => h (List.mem_cons_of_mem c hh)
    rw [splitOnColon, if_neg hc, ih hrest]

theorem splitOnColon_append (a b : List Char) (ha : ':' ∉ a) :
    splitOnColon (a ++ ':' :: b) = a :: splitOnColon b := by
  induction a with
  | nil => simp [splitOnColon]
  | cons c rest ih =>
    have hc : c ≠ ':' := fun hh => ha (hh ▸ List.mem_cons_self c rest)
    have hrest : ':' ∉ rest := fun hh => ha (List.mem_cons_of_mem c hh)
    rw [List.cons_append, splitOnColon, if_neg hc, ih hrest]

theorem decrypt_encrypt (c : Cipher) (k : String) (iv : List Nat) (text : String)
    (hkey : (jsHexDecode k.data).length = 32)
    (hivlen : iv.length = 16) (hivb : ∀ b ∈ iv, b < 256) :
    encrypt (some k) c iv text = Except.ok (String.mk
      (bytesToHexChars iv ++ ':' :: bytesToHexChars (c.enc (jsHexDecode k.data) iv text))) ∧
    decrypt (some k) c (String.mk
      (bytesToHexChars iv ++ ':' :: bytesToHexChars (c.enc (jsHexDecode k.data) iv text)))
      = Except.ok text := by
  constructor
  · rw [encrypt]
    simp [hkey]
  · rw [decrypt]
    show (match splitOnColon (bytesToHexChars iv ++ ':'
        :: bytesToHexChars (c.enc (jsHexDecode k.data) iv text)) with
      | ivHex :: encrypted :: _ =>
        if (jsHexDecode k.data).length ≠ 32 then Except.error "Invalid key length"
        else if (jsHexDecode ivHex).length ≠ 16 then
          Except.error "Invalid initialization vector"
        else Except.ok (c.dec (jsHexDecode k.data) (jsHexDecode ivHex) (jsHexDecode encrypted))
      | _ => Except.error "TypeError: encrypted part is undefined") = Except.ok text
    rw [splitOnColon_append _ _ (colon_not_mem_bytesToHexChars iv hivb),
      splitOnColon_of_colon_not_mem _
        (colon_not_mem_bytesToHexChars _ (c.enc_byte (jsHexDecode k.data) iv text))]
    show (if (jsHexDecode k.data).length ≠ 32 then Except.error "Invalid key length"
      else if (jsHexDecode (bytesToHexChars iv)).length ≠ 16 then
        Except.error "Invalid initialization vector"
      else Except.ok (c.dec (jsHexDecode k.data) (jsHexDecode (bytesToHexChars iv))
        (jsHexDecode (bytesToHexChars (c.enc (jsHexDecode k.data) iv text)))))
      = Except.ok text
    rw [jsHexDecode_bytesToHexChars iv hivb,
      jsHexDecode_bytesToHexChars _ (c.enc_byte (jsHexDecode k.data) iv text)]
    simp [hkey, hivlen, c.dec_enc]

/-! ## Claims -/

/-- C5: `needsRefresh(record)` is true iff `expiresAt` is null or the
current time is at or past `expiresAt` minus the 10-minute buffer
(records carrying a well-formed nullable expiry); in particular it is
true at `expiresAt = now + 9 min` and false at `expiresAt = now + 11 min`. -/
theorem c5_needsRefresh_iff (now : Int) (tokens : LightspeedToken)
    (h : tokens.expiresAt ≠ some JsTime.invalid) :
    (needsRefresh now tokens = true ↔
      tokens.expiresAt = none ∨
        ∃ e, tokens.expiresAt = some (JsTime.valid e) ∧ now ≥ e - 10 * 60 * 1000) ∧
    needsRefresh now { tokens with expiresAt := some (JsTime.valid (now + 9 * 60 * 1000)) }
      = true ∧
    needsRefresh now { tokens with expiresAt := some (JsTime.valid (now + 11 * 60 * 1000)) }
      = false := by
  refine ⟨?_, ?_, ?_⟩
  · match htok : tokens.expiresAt with
    | none => simp [needsRefresh, htok]
    | some JsTime.invalid => exact absurd htok h
    | some (JsTime.valid e) =>
      simp only [needsRefresh, htok, REFRESH_BUFFER_MINUTES]
      constructor
      · intro hle
        refine Or.inr ⟨e, rfl, ?_⟩
        have := of_decide_eq_true hle
        omega
      · rintro (hnone | ⟨e2, he2, hge⟩)
        · exact absurd hnone (by simp)
        · have : e2 = e := by
            injection he2 with he2
            injection he2 with he2
            exact he2.symm
          subst this
          exact decide_eq_true (by omega)
  · simp only [needsRefresh, REFRESH_BUFFER_MINUTES]
    exact decide_eq_true (by omega)
  · simp only [needsRefresh, REFRESH_BUFFER_MINUTES]
    refine decide_eq_false (by omega)

/-- C5 witness: at `now = 0`, a record expiring at `+9 min` needs
refresh, one expiring at `+11 min` does not, and the iff holds. -/
theorem c5_needsRefresh_iff_witness :
    demoRecord.expiresAt ≠ some JsTime.invalid ∧
    ((needsRefresh 0 demoRecord = true ↔
      demoRecord.expiresAt = none ∨
        ∃ e, demoRecord.expiresAt = some (JsTime.valid e) ∧ (0 : Int) ≥ e - 10 * 60 * 1000) ∧
    needsRefresh 0 { demoRecord with expiresAt := some (JsTime.valid (0 + 9 * 60 * 1000)) }
      = true ∧
    needsRefresh 0 { demoRecord with expiresAt := some (JsTime.valid (0 + 11 * 60 * 1000)) }
      = false) :=
  ⟨by decide, c5_needsRefresh_iff 0 demoRecord (by decide)⟩

/-- C10: `getTokenStatus` reads only `expiresAt` and `updatedAt` of the
stored record — two records agreeing on those fields yield the same
status whatever their ciphertext fields hold, and no encryption key is
even an input of the computation. -/
theorem c10_getTokenStatus_no_decrypt (now : Int) (r1 r2 : LightspeedToken)
    (h1 : r1.expiresAt = r2.expiresAt) (h2 : r1.updatedAt = r2.updatedAt) :
    getTokenStatus now [r1] = getTokenStatus now [r2] := by
  simp only [getTokenStatus, List.head?, needsRefresh, h1, h2]

/-- C10 witness: two records sharing expiry and update time but with
completely different (even malformed) ciphertext fields get an
identical status. -/
theorem c10_getTokenStatus_no_decrypt_witness :
    demoRecord2.expiresAt = demoRecord.expiresAt ∧
    demoRecord2.updatedAt = demoRecord.updatedAt ∧
    getTokenStatus 5 [demoRecord2] = getTokenStatus 5 [demoRecord] :=
  ⟨by decide, by decide, c10_getTokenStatus_no_decrypt 5 demoRecord2 demoRecord rfl rfl⟩

/-- C6: under a well-formed 32-byte key, decryption inverts encryption
(the IV is prefixed to the ciphertext, so decryption needs only the
ciphertext), and encrypting the same plaintext under two distinct IVs
yields distinct ciphertexts. -/
theorem c6_encrypt_roundtrip (c : Cipher) (k : String) (iv1 iv2 : List Nat) (text : String)
    (hkey : (jsHexDecode k.data).length = 32)
    (hiv1len : iv1.length = 16) (hiv1b : ∀ b ∈ iv1, b < 256)
    (hiv2len : iv2.length = 16) (hiv2b : ∀ b ∈ iv2, b < 256) :
    (∃ ct, encrypt (some k) c iv1 text = Except.ok ct ∧
      decrypt (some k) c ct = Except.ok text) ∧
    (iv1 ≠ iv2 → encrypt (some k) c iv1 text ≠ encrypt (some k) c iv2 text) := by
  obtain ⟨he1, hd1⟩ := decrypt_encrypt c k iv1 text hkey hiv1len hiv1b
  refine ⟨⟨_, he1, hd1⟩, ?_⟩
  intro hne heq
  obtain ⟨he2, _⟩ := decrypt_encrypt c k iv2 text hkey hiv2len hiv2b
  rw [he1, he2] at heq
  injection heq with heq
  injection heq with heq
  have hsp := congrArg splitOnColon heq
  rw [splitOnColon_append _ _ (colon_not_mem_bytesToHexChars iv1 hiv1b),
    splitOnColon_append _ _ (colon_not_mem_bytesToHexChars iv2 hiv2b)] at hsp
  injection hsp with hsp
  exact hne (bytesToHexChars_inj iv1 iv2 hiv1b hiv2b hsp)

/-- C6 witness: roundtrip and IV-distinctness evaluated at the demo
cipher, the demo 32-byte key and two concrete 16-byte IVs. -/
theorem c6_encrypt_roundtrip_witness :
    (jsHexDecode demoKeyHex.data).length = 32 ∧ demoIv1 ≠ demoIv2 ∧
    ((∃ ct, encrypt (some demoKeyHex) demoCipher demoIv1 demoPlainRefresh = Except.ok ct ∧
        decrypt (some demoKeyHex) demoCipher ct = Except.ok demoPlainRefresh) ∧
      (demoIv1 ≠ demoIv2 →
        encrypt (some demoKeyHex) demoCipher demoIv1 demoPlainRefresh
          ≠ encrypt (some demoKeyHex) demoCipher demoIv2 demoPlainRefresh)) :=
  ⟨by decide, by decide,
   c6_encrypt_roundtrip demoCipher demoKeyHex demoIv1 demoIv2 demoPlainRefresh
     (by decide) (by decide) (by decide) (by decide) (by decide)⟩

/-- C2: on a non-success response or transport error, `refreshTokens`
returns none and storage is byte-for-byte unchanged; and storage can
change at all only when the provider returned a 2xx response — the
provider call precedes every storage mutation. -/
theorem c2_refresh_failure_no_mutation (cfg : OAuthConfig) (key : Option String)
    (c : Cipher) (ivA ivR : List Nat) (now : Int) (storage : List LightspeedToken)
    (newId : Nat) (rt : String) :
    (∀ status errorText,
      (refreshTokens cfg key c ivA ivR now (HttpResult.httpError status errorText)
        storage newId rt).result = none ∧
      (refreshTokens cfg key c ivA ivR now (HttpResult.httpError status errorText)
        storage newId rt).storage = storage) ∧
    (∀ msg,
      (refreshTokens cfg key c ivA ivR now (HttpResult.networkError msg)
        storage newId rt).result = none ∧
      (refreshTokens cfg key c ivA ivR now (HttpResult.networkError msg)
        storage newId rt).storage = storage) ∧
    (∀ http, (refreshTokens cfg key c ivA ivR now http storage newId rt).storage ≠ storage →
      ∃ data, http = HttpResult.ok data) := by
  have hfail : ∀ http, (∀ data, http ≠ HttpResult.ok data) →
      (refreshTokens cfg key c ivA ivR now http storage newId rt).result = none ∧
      (refreshTokens cfg key c ivA ivR now http storage newId rt).storage = storage := by
    intro http hne
    rcases hcid : cfg.clientId with _ | cid <;> rcases hcs : cfg.clientSecret with _ | cs <;>
      cases http with
      | ok data => exact absurd rfl (hne data)
      | httpError status errorText => simp [refreshTokens, requestTokenRefresh, hcid, hcs]
      | networkError msg => simp [refreshTokens, requestTokenRefresh, hcid, hcs]
  refine ⟨?_, ?_, ?_⟩
  · intro status errorText
    exact hfail (HttpResult.httpError status errorText) (fun _ h => by cases h)
  · intro msg
    exact hfail (HttpResult.networkError msg) (fun _ h => by cases h)
  · intro http hch
    cases http with
    | ok data => exact ⟨data, rfl⟩
    | httpError status errorText =>
      exact absurd (hfail (HttpResult.httpError status errorText) (fun _ h => by cases h)).2 hch
    | networkError msg =>
      exact absurd (hfail (HttpResult.networkError msg) (fun _ h => by cases h)).2 hch

/-- C2 witness: at a concrete stored record and a 401 response, the
refresh returns none and leaves the record untouched. -/
theorem c2_refresh_failure_no_mutation_witness :
    (refreshTokens demoCfg demoKey demoCipher demoIv1 demoIv2 0
      (HttpResult.httpError 401 "invalid_grant") [demoRecord] 2 demoPlainRefresh).result
        = none ∧
    (refreshTokens demoCfg demoKey demoCipher demoIv1 demoIv2 0
      (HttpResult.httpError 401 "invalid_grant") [demoRecord] 2 demoPlainRefresh).storage
        = [demoRecord] :=
  (c2_refresh_failure_no_mutation demoCfg demoKey demoCipher demoIv1 demoIv2 0
    [demoRecord] 2 demoPlainRefresh).1 401 "invalid_grant"

/-- C3: a successful refresh against an existing record overwrites it
in place with the ciphertexts of the provider's returned pair — the new
refresh token `r` is persisted whatever token `rt` was sent — setting
`updatedAt := now ≥` the previous `updatedAt`; with no record present a
row is inserted instead. -/
theorem c3_refresh_success_updates (cfg : OAuthConfig) (cid cs : String)
    (key : Option String) (c : Cipher) (ivA ivR : List Nat) (now : Int)
    (raw : RawTokenData) (a r ea er : String) (e : Int) (rec : LightspeedToken)
    (newId : Nat) (rt : String)
    (hcid : cfg.clientId = some cid) (hcs : cfg.clientSecret = some cs)
    (hat : raw.access_token = some a) (hrt : raw.refresh_token = some r)
    (ha : a ≠ "") (hr : r ≠ "") (hei : raw.expires_in = some e)
    (hea : encrypt key c ivA a = Except.ok ea) (her : encrypt key c ivR r = Except.ok er)
    (hnow : rec.updatedAt ≤ now) :
    (refreshTokens cfg key c ivA ivR now (HttpResult.ok raw) [rec] newId rt).storage
      = [refreshedRecord rec.id ea er now e] ∧
    (refreshTokens cfg key c ivA ivR now (HttpResult.ok raw) [rec] newId rt).result
      = some (refreshedRecord rec.id ea er now e) ∧
    rec.updatedAt ≤ (refreshedRecord rec.id ea er now e).updatedAt ∧
    (refreshTokens cfg key c ivA ivR now (HttpResult.ok raw) [] newId rt).storage
      = [refreshedRecord newId ea er now e] ∧
    (refreshTokens cfg key c ivA ivR now (HttpResult.ok raw) [] newId rt).result
      = some (refreshedRecord newId ea er now e) := by
  refine ⟨?_, ?_, hnow, ?_, ?_⟩ <;>
    simp [refreshTokens, requestTokenRefresh, hcid, hcs, hat, hrt, jsTruthyStr, ha, hr,
      updateTokens, insertTokens, hei, hea, her, jsAddSeconds, refreshedRecord]

/-- C3 witness: with the demo fixtures and a well-formed provider
response, the stored record is replaced in place by the refreshed one. -/
theorem c3_refresh_success_updates_witness :
    demoRecord.updatedAt ≤ 0 ∧
    (refreshTokens demoCfg demoKey demoCipher demoIv1 demoIv2 0
        (HttpResult.ok demoRaw) [demoRecord] 2 demoPlainRefresh).storage
      = [refreshedRecord demoRecord.id
          ((encrypt demoKey demoCipher demoIv1 "ACCESS-TOKEN-FROM-PROVIDER-1").toOption.getD "")
          ((encrypt demoKey demoCipher demoIv2 "REFRESH-TOKEN-FROM-PROVIDER").toOption.getD "")
          0 3600] :=
  ⟨by decide,
   (c3_refresh_success_updates demoCfg "client-id" "client-secret" demoKey demoCipher
     demoIv1 demoIv2 0 demoRaw "ACCESS-TOKEN-FROM-PROVIDER-1" "REFRESH-TOKEN-FROM-PROVIDER"
     ((encrypt demoKey demoCipher demoIv1 "ACCESS-TOKEN-FROM-PROVIDER-1").toOption.getD "")
     ((encrypt demoKey demoCipher demoIv2 "REFRESH-TOKEN-FROM-PROVIDER").toOption.getD "")
     3600 demoRecord 2 demoPlainRefresh rfl rfl rfl rfl (by decide) (by decide) rfl
     (by rfl) (by rfl) (by decide)).1⟩

theorem insertTokens_storage_cases (key : Option String) (c : Cipher) (ivA ivR : List Nat)
    (now : Int) (accessToken refreshToken : Option String) (expiresIn : Option Int)
    (storage : List LightspeedToken) (newId : Nat) :
    (insertTokens key c ivA ivR now accessToken refreshToken expiresIn storage newId).storage
      = storage ∨
    ∃ rec, (insertTokens key c ivA ivR now accessToken refreshToken expiresIn
      storage newId).storage = storage ++ [rec] := by
  simp only [insertTokens]
  repeat' split
  all_goals first
    | (left; rfl)
    | (right; exact ⟨_, rfl⟩)

theorem updateTokens_storage_length (key : Option String) (c : Cipher) (ivA ivR : List Nat)
    (now : Int) (id : Nat) (accessToken refreshToken : Option String)
    (expiresIn : Option Int) (storage : List LightspeedToken) :
    (updateTokens key c ivA ivR now id accessToken refreshToken expiresIn
      storage).storage.length = storage.length := by
  simp only [updateTokens]
  repeat' split
  all_goals simp

theorem insertTokens_storage_length_of_nil (key : Option String) (c : Cipher)
    (ivA ivR : List Nat) (now : Int) (accessToken refreshToken : Option String)
    (expiresIn : Option Int) (newId : Nat) :
    (insertTokens key c ivA ivR now accessToken refreshToken expiresIn
      [] newId).storage.length ≤ 1 := by
  rcases insertTokens_storage_cases key c ivA ivR now accessToken refreshToken expiresIn
    [] newId with hc | ⟨rec, hc⟩ <;> simp [hc]

theorem refreshTokens_storage_length_le (cfg : OAuthConfig) (key : Option String)
    (c : Cipher) (ivA ivR : List Nat) (now : Int) (http : HttpResult)
    (storage : List LightspeedToken) (newId : Nat) (rt : String)
    (h : storage.length ≤ 1) :
    (refreshTokens cfg key c ivA ivR now http storage newId rt).storage.length ≤ 1 := by
  simp only [refreshTokens]
  split
  · exact h
  · exact h
  · split
    · rename_i hhead
      have hnil : storage = [] := List.head?_eq_none_iff.mp hhead
      subst hnil
      split <;> apply insertTokens_storage_length_of_nil
    · split <;> (rw [updateTokens_storage_length]; exact h)

theorem getValidAccessToken_storage_length_le (cfg : OAuthConfig) (key : Option String)
    (c : Cipher) (ivA ivR : List Nat) (now : Int) (http : HttpResult)
    (storage : List LightspeedToken) (newId : Nat)
    (h : storage.length ≤ 1) :
    (getValidAccessToken cfg key c ivA ivR now http storage newId).storage.length ≤ 1 := by
  simp only [getValidAccessToken]
  have hr := fun rt => refreshTokens_storage_length_le cfg key c ivA ivR now http
    storage newId rt h
  repeat' split
  all_goals first
    | exact h
    | exact hr _

theorem checkAndRefreshTokens_storage_length_le (cfg : OAuthConfig) (key : Option String)
    (c : Cipher) (ivA ivR : List Nat) (now : Int) (http : HttpResult)
    (storage : List LightspeedToken) (newId : Nat) (lastHad : Bool)
    (h : storage.length ≤ 1) :
    (checkAndRefreshTokens cfg key c ivA ivR now http storage newId
      lastHad).storage.length ≤ 1 := by
  simp only [checkAndRefreshTokens]
  have hr := fun rt => refreshTokens_storage_length_le cfg key c ivA ivR now http
    storage newId rt h
  repeat' split
  all_goals first
    | exact h
    | exact hr _

theorem loginWithAuthCode_storage_cases (cfg : OAuthConfig) (key : Option String)
    (c : Cipher) (ivA ivR : List Nat) (now : Int) (http : HttpResult) (authCode : String)
    (storage : List LightspeedToken) (newId : Nat) :
    (loginWithAuthCode cfg key c ivA ivR now http authCode storage newId).storage = storage ∨
    ∃ rec, (loginWithAuthCode cfg key c ivA ivR now http authCode storage newId).storage
      = storage ++ [rec] := by
  simp only [loginWithAuthCode]
  repeat' split
  all_goals first
    | (left; rfl)
    | apply insertTokens_storage_cases

theorem setTokensManually_storage_cases (key : Option String) (c : Cipher)
    (ivA ivR : List Nat) (now : Int) (accessToken refreshToken : String)
    (expiresInMinutes : Option Int) (storage : List LightspeedToken) (newId : Nat) :
    (setTokensManually key c ivA ivR now accessToken refreshToken expiresInMinutes
      storage newId).storage = storage ∨
    ∃ rec, (setTokensManually key c ivA ivR now accessToken refreshToken expiresInMinutes
      storage newId).storage = storage ++ [rec] := by
  simp only [setTokensManually]
  split
  · left; rfl
  · apply insertTokens_storage_cases

/-- C9 counterexample: from the empty store, two successful logins
leave TWO records in storage — `loginWithAuthCode` always inserts, so
the at-most-one-record invariant is not preserved by every operation
sequence. -/
theorem c9_counterexample_two_logins :
    ((loginWithAuthCode demoCfg demoKey demoCipher demoIv1 demoIv2 0 (HttpResult.ok demoRaw)
      "authcode"
      ((loginWithAuthCode demoCfg demoKey demoCipher demoIv1 demoIv2 0 (HttpResult.ok demoRaw)
        "authcode" [] 1).storage) 2).storage).length = 2 := by decide

/-- C9 (amended): starting from at most one record, the refresh
operations (`refreshTokens`, `getValidAccessToken`, the scheduler
tick) and `clearTokens` preserve the at-most-one-record invariant, and
a read (`getTokenStatus`) does not touch storage; but `loginWithAuthCode`
and `setTokensManually` always insert — they never update — so invoked
while a record exists they leave a second record behind. -/
theorem c9_amended_invariant (cfg : OAuthConfig) (key : Option String) (c : Cipher)
    (ivA ivR : List Nat) (now : Int) (http : HttpResult)
    (storage : List LightspeedToken) (newId : Nat) (rt authCode a r : String)
    (em : Option Int) (lastHad : Bool)
    (h : storage.length ≤ 1) :
    (refreshTokens cfg key c ivA ivR now http storage newId rt).storage.length ≤ 1 ∧
    (getValidAccessToken cfg key c ivA ivR now http storage newId).storage.length ≤ 1 ∧
    (checkAndRefreshTokens cfg key c ivA ivR now http storage newId
      lastHad).storage.length ≤ 1 ∧
    (clearTokens storage).length ≤ 1 ∧
    ((loginWithAuthCode cfg key c ivA ivR now http authCode storage newId).storage = storage ∨
      ∃ rec, (loginWithAuthCode cfg key c ivA ivR now http authCode storage newId).storage
        = storage ++ [rec]) ∧
    ((setTokensManually key c ivA ivR now a r em storage newId).storage = storage ∨
      ∃ rec, (setTokensManually key c ivA ivR now a r em storage newId).storage
        = storage ++ [rec]) :=
  ⟨refreshTokens_storage_length_le cfg key c ivA ivR now http storage newId rt h,
   getValidAccessToken_storage_length_le cfg key c ivA ivR now http storage newId h,
   checkAndRefreshTokens_storage_length_le cfg key c ivA ivR now http storage newId lastHad h,
   by simp [clearTokens],
   loginWithAuthCode_storage_cases cfg key c ivA ivR now http authCode storage newId,
   setTokensManually_storage_cases key c ivA ivR now a r em storage newId⟩

/-- C9 witness: the amended invariant evaluated at the demo fixtures
with a single stored record. -/
theorem c9_amended_invariant_witness :
    ([demoRecord] : List LightspeedToken).length ≤ 1 ∧
    (refreshTokens demoCfg demoKey demoCipher demoIv1 demoIv2 0 (HttpResult.ok demoRaw)
      [demoRecord] 2 demoPlainRefresh).storage.length ≤ 1 :=
  ⟨by decide,
   (c9_amended_invariant demoCfg demoKey demoCipher demoIv1 demoIv2 0 (HttpResult.ok demoRaw)
     [demoRecord] 2 demoPlainRefresh "authcode" "MANUAL-ACCESS-TOKEN" "MANUAL-REFRESH-TOKEN"
     none true (by decide)).1⟩

set_option maxRecDepth 20000 in
/-- C1 (code bug, token-scheduler.ts line 120): when the scheduler's
5-minute refresh task performs a refresh, the refresh token it hands to
`refreshTokens` — and hence the one POSTed to the provider — is the
record's stored `refreshToken` ciphertext, undecrypted (and distinct
from the plaintext); `getValidAccessToken` on the same state sends the
decrypted plaintext. -/
theorem c1_scheduler_sends_ciphertext :
    ((checkAndRefreshTokens demoCfg demoKey demoCipher demoIv1 demoIv2 0
        (HttpResult.httpError 401 "invalid_grant") [demoRecord] 2 true).calls.map
      (fun call => call.refresh_token)) = [demoRecord.refreshToken] ∧
    decrypt demoKey demoCipher demoRecord.refreshToken = Except.ok demoPlainRefresh ∧
    demoRecord.refreshToken ≠ demoPlainRefresh ∧
    ((getValidAccessToken demoCfg demoKey demoCipher demoIv1 demoIv2 0
        (HttpResult.httpError 401 "invalid_grant") [demoRecord] 2).calls.map
      (fun call => call.refresh_token)) = [demoPlainRefresh] := by
  refine ⟨by decide, rfl, by decide, by decide⟩

set_option maxRecDepth 20000 in
/-- C4 (code bug, lines 672-690): on a 2xx response missing a token
field, `exchangeAuthCodeForTokens` returns null but
`requestTokenRefresh` logs `Invalid response - missing tokens` and
still returns the malformed data to its caller; non-success statuses
and transport errors do yield null in both operations. -/
theorem c4_missing_token_field_passthrough :
    (requestTokenRefresh demoCfg (HttpResult.ok rawMissingAccess) "rt").result
      = Except.ok (some rawMissingAccess) ∧
    "❌ Invalid response - missing tokens"
      ∈ (requestTokenRefresh demoCfg (HttpResult.ok rawMissingAccess) "rt").logs ∧
    (exchangeAuthCodeForTokens demoCfg (HttpResult.ok rawMissingAccess) "code").result
      = Except.ok none ∧
    (requestTokenRefresh demoCfg (HttpResult.httpError 500 "oops") "rt").result
      = Except.ok none ∧
    (requestTokenRefresh demoCfg (HttpResult.networkError "ECONNRESET") "rt").result
      = Except.ok none ∧
    (exchangeAuthCodeForTokens demoCfg (HttpResult.httpError 500 "oops") "code").result
      = Except.ok none ∧
    (exchangeAuthCodeForTokens demoCfg (HttpResult.networkError "ECONNRESET") "code").result
      = Except.ok none := by
  refine ⟨rfl, by decide, rfl, rfl, rfl, rfl, rfl⟩

set_option maxRecDepth 20000 in
/-- C7 (code bug, lines 610-622 vs 672-690): `exchangeAuthCodeForTokens`
defaults a missing `expires_in` to 3600, but `requestTokenRefresh`
passes the response through with the field still absent, so a refresh
whose response omits `expires_in` stores a record with an invalid
expiry timestamp instead of one hour from now. -/
theorem c7_expires_in_default_only_in_auth_exchange :
    (exchangeAuthCodeForTokens demoCfg (HttpResult.ok rawNoExpiry) "code").result
      = Except.ok (some
          { access_token := "ACCESS-TOKEN-FROM-PROVIDER-1",
            refresh_token := "REFRESH-TOKEN-FROM-PROVIDER",
            expires_in := 3600 }) ∧
    (requestTokenRefresh demoCfg (HttpResult.ok rawNoExpiry) "rt").result
      = Except.ok (some rawNoExpiry) ∧
    rawNoExpiry.expires_in = none ∧
    ((refreshTokens demoCfg demoKey demoCipher demoIv1 demoIv2 0 (HttpResult.ok rawNoExpiry)
        [] 1 "rt").storage.map (fun t => t.expiresAt)) = [some JsTime.invalid] := by
  refine ⟨rfl, rfl, rfl, by decide⟩

/-- C8 counterexample: on a failed refresh the diagnostic log contains
the full 29-character refresh token, not a truncated prefix. -/
theorem c8_counterexample_full_secret_logged :
    ("RT-SECRET-0123456789-ABCDEFGH".length = 29) ∧
    "🚨 The refresh token that failed was: RT-SECRET-0123456789-ABCDEFGH"
      ∈ (requestTokenRefresh demoCfg (HttpResult.httpError 401 "invalid_grant")
          "RT-SECRET-0123456789-ABCDEFGH").logs := by
  refine ⟨by decide, by decide⟩

theorem sep_not_mem_isPre (tok xs ys : List Char) (a : Char) (ha : a ∉ tok)
    (h : tok <+: xs ++ a :: ys) : tok <+: xs := by
  induction xs generalizing tok with
  | nil =>
    cases tok with
    | nil => exact ⟨[], rfl⟩
    | cons c tok2 =>
      obtain ⟨t, ht⟩ := h
      injection ht with h1 _
      exact absurd (h1 ▸ List.mem_cons_self c tok2) ha
  | cons x xs2 ih =>
    cases tok with
    | nil => exact ⟨x :: xs2, rfl⟩
    | cons c tok2 =>
      obtain ⟨t, ht⟩ := h
      injection ht with h1 h2
      subst h1
      obtain ⟨u, hu⟩ := ih tok2 (fun hm => ha (List.mem_cons_of_mem _ hm)) ⟨t, h2⟩
      exact ⟨u, by rw [List.cons_append, hu]⟩

theorem sep_not_mem_within (tok : List Char) (a : Char) (ha : a ∉ tok) :
    ∀ xs ys, tok <:+: xs ++ a :: ys → tok <:+: xs ∨ tok <:+: ys := by
  intro xs
  induction xs with
  | nil =>
    intro ys h
    obtain ⟨s, t, hst⟩ := h
    cases s with
    | nil =>
      obtain ⟨u, hu⟩ := sep_not_mem_isPre tok [] ys a ha ⟨t, by simpa using hst⟩
      simp at hu
      obtain ⟨h1, _⟩ := hu
      subst h1
      exact Or.inl ⟨[], [], rfl⟩
    | cons b s2 =>
      injection hst with _ h2
      exact Or.inr ⟨s2, t, h2⟩
  | cons x xs2 ih =>
    intro ys h
    obtain ⟨s, t, hst⟩ := h
    cases s with
    | nil =>
      have hpre : tok <+: (x :: xs2) ++ a :: ys := ⟨t, by simpa using hst⟩
      exact Or.inl (sep_not_mem_isPre tok (x :: xs2) ys a ha hpre).isInfix
    | cons b s2 =>
      injection hst with _ h2
      rcases ih ys ⟨s2, t, h2⟩ with hl | hr
      · obtain ⟨s3, t3, h3⟩ := hl
        exact Or.inl ⟨x :: s3, t3, by rw [← h3]; rfl⟩
      · exact Or.inr hr

theorem windowed_not_within (l tok : List Char) (hw : slidingHasSpace l = true)
    (hlen : 24 ≤ tok.length) (hsp : ' ' ∉ tok) : ¬ tok <:+: l := by
  induction l with
  | nil =>
    intro h
    have hle := h.length_le
    simp only [List.length_nil] at hle
    omega
  | cons c rest ih =>
    intro h
    rw [slidingHasSpace, Bool.and_eq_true] at hw
    obtain ⟨hwin, hrest⟩ := hw
    obtain ⟨s, t, hst⟩ := h
    cases s with
    | nil =>
      rw [windowOk, Bool.or_eq_true] at hwin
      simp only [List.nil_append] at hst
      rcases hwin with hlt | hcont
      · have hlt2 := of_decide_eq_true hlt
        have : 24 ≤ (c :: rest).length := by
          rw [← hst]
          simp
          omega
        omega
      · have hcont2 := of_decide_eq_true hcont
        rw [← hst, List.take_append_of_le_length hlen] at hcont2
        exact hsp (List.take_subset 24 tok hcont2)
    | cons b s2 =>
      injection hst with _ h2
      exact ih hrest ⟨s2, t, h2⟩

theorem trunc_not_within (pre tail tok : List Char) (hw : slidingHasSpace pre = true)
    (htail : tail.length ≤ 23) (hlen : 24 ≤ tok.length) (hsp : ' ' ∉ tok) :
    ¬ tok <:+: pre ++ ' ' :: tail := by
  intro h
  rcases sep_not_mem_within tok ' ' hsp pre tail h with h1 | h2
  · exact windowed_not_within pre tok hw hlen hsp h1
  · have := h2.length_le
    omega

theorem trunc_line_not_within (preS p : String) (tok : List Char)
    (hw : slidingHasSpace preS.data = true) (hp : p.data.length ≤ 20)
    (hlen : 24 ≤ tok.length) (hsp : ' ' ∉ tok) :
    ¬ tok <:+: ((preS ++ " ") ++ p ++ "...").data := by
  have hd : ((preS ++ " ") ++ p ++ "...").data
      = preS.data ++ ' ' :: (p.data ++ "...".data) := by
    show ((preS.data ++ " ".data) ++ p.data) ++ "...".data
      = preS.data ++ ' ' :: (p.data ++ "...".data)
    simp
  rw [hd]
  apply trunc_not_within preS.data _ tok hw _ hlen hsp
  have : "...".data.length = 3 := rfl
  simp only [List.length_append, this]
  omega

/-- C8 (amended): on the pre-request and success paths of
`requestTokenRefresh` each secret appears only truncated to its
20-character prefix — the complete success-path log output is
characterised, and for secrets of at least 24 characters containing no
space (shorter or dotted secrets can coincide with their own truncated
rendering) no log line of that path contains the full secret at all —
while the failure paths deliberately log full secrets: a non-success or
transport failure logs the full refresh token, and the storage-failure
recovery blocks of both `insertTokens` and `updateTokens` log the full
access and refresh tokens. -/
theorem c8_amended_truncation_and_failure_logs (cfg : OAuthConfig)
    (cid cs rt na nr errText msg em : String) (status : Nat)
    (key : Option String) (c : Cipher) (ivA ivR : List Nat) (now : Int) (uid : Nat)
    (a r : String) (ei : Option Int) (storage : List LightspeedToken) (newId : Nat)
    (data : RawTokenData)
    (hcid : cfg.clientId = some cid) (hcs : cfg.clientSecret = some cs)
    (hda : data.access_token = some na) (hdr : data.refresh_token = some nr)
    (hrtlen : 24 ≤ rt.length) (hrtsp : ' ' ∉ rt.data)
    (hnalen : 24 ≤ na.length) (hnasp : ' ' ∉ na.data)
    (hnrlen : 24 ≤ nr.length) (hnrsp : ' ' ∉ nr.data)
    (hea : encrypt key c ivA a = Except.error em) :
    (requestTokenRefresh cfg (HttpResult.ok data) rt).logs =
      ["🔄 Requesting token refresh from Lightspeed...",
       "  Using refresh token (first 20 chars): " ++ first20 rt ++ "...",
       "✅ Tokens refreshed successfully from Lightspeed",
       "  New Access Token (first 20): " ++ first20 na ++ "...",
       "  New Refresh Token (first 20): " ++ first20 nr ++ "..."] ∧
    (∀ line ∈ (requestTokenRefresh cfg (HttpResult.ok data) rt).logs,
      ¬ rt.data <:+: line.data ∧ ¬ na.data <:+: line.data ∧ ¬ nr.data <:+: line.data) ∧
    ("🚨 The refresh token that failed was: " ++ rt)
      ∈ (requestTokenRefresh cfg (HttpResult.httpError status errText) rt).logs ∧
    ("🚨 The refresh token that caused the error was: " ++ rt)
      ∈ (requestTokenRefresh cfg (HttpResult.networkError msg) rt).logs ∧
    ("  LIGHTSPEED_REFRESH_TOKEN=" ++ r)
      ∈ (insertTokens key c ivA ivR now (some a) (some r) ei storage newId).logs ∧
    ("  Access token was: " ++ a)
      ∈ (insertTokens key c ivA ivR now (some a) (some r) ei storage newId).logs ∧
    ("  LIGHTSPEED_REFRESH_TOKEN=" ++ r)
      ∈ (updateTokens key c ivA ivR now uid (some a) (some r) ei storage).logs ∧
    ("  Access token was: " ++ a)
      ∈ (updateTokens key c ivA ivR now uid (some a) (some r) ei storage).logs := by
  have hlen0 : ∀ s : String, 24 ≤ s.length → s ≠ "" := by
    intro s hs h
    subst h
    simp [String.length] at hs
  have heq : (requestTokenRefresh cfg (HttpResult.ok data) rt).logs =
      ["🔄 Requesting token refresh from Lightspeed...",
       "  Using refresh token (first 20 chars): " ++ first20 rt ++ "...",
       "✅ Tokens refreshed successfully from Lightspeed",
       "  New Access Token (first 20): " ++ first20 na ++ "...",
       "  New Refresh Token (first 20): " ++ first20 nr ++ "..."] := by
    simp [requestTokenRefresh, hcid, hcs, hda, hdr, jsTruthyStr,
      hlen0 na hnalen, hlen0 nr hnrlen]
  have hfirst : ∀ s : String, (first20 s).data.length ≤ 20 := by
    intro s
    show (s.data.take 20).length ≤ 20
    simp
  have key5 : ∀ tok : List Char, 24 ≤ tok.length → ' ' ∉ tok →
      ∀ line ∈ (requestTokenRefresh cfg (HttpResult.ok data) rt).logs,
        ¬ tok <:+: line.data := by
    intro tok hlen hsp line hline
    rw [heq] at hline
    simp only [List.mem_cons, List.not_mem_nil, or_false] at hline
    rcases hline with h | h | h | h | h <;> subst h
    · exact windowed_not_within _ tok (by decide) hlen hsp
    · exact trunc_line_not_within "  Using refresh token (first 20 chars):" (first20 rt)
        tok (by decide) (hfirst rt) hlen hsp
    · exact windowed_not_within _ tok (by decide) hlen hsp
    · exact trunc_line_not_within "  New Access Token (first 20):" (first20 na)
        tok (by decide) (hfirst na) hlen hsp
    · exact trunc_line_not_within "  New Refresh Token (first 20):" (first20 nr)
        tok (by decide) (hfirst nr) hlen hsp
  refine ⟨heq, ?_, ?_, ?_, ?_, ?_, ?_, ?_⟩
  · intro line hline
    have hl : 24 ≤ rt.data.length := hrtlen
    have hl2 : 24 ≤ na.data.length := hnalen
    have hl3 : 24 ≤ nr.data.length := hnrlen
    exact ⟨key5 rt.data hl hrtsp line hline, key5 na.data hl2 hnasp line hline,
      key5 nr.data hl3 hnrsp line hline⟩
  · simp [requestTokenRefresh, hcid, hcs]
  · simp [requestTokenRefresh, hcid, hcs]
  · simp [insertTokens, recoveryLogs, hea]
  · simp [insertTokens, recoveryLogs, hea]
  · simp [updateTokens, recoveryLogs, hea]
  · simp [updateTokens, recoveryLogs, hea]

/-- C8 amended witness: evaluated with the demo credentials, three
concrete space-free secrets of 27-29 characters, a 2xx refresh, a 401
failure and an update attempted without an encryption key. -/
theorem c8_amended_truncation_and_failure_logs_witness :
    24 ≤ ("RT-SECRET-0123456789-ABCDEFGH" : String).length ∧
    ' ' ∉ ("RT-SECRET-0123456789-ABCDEFGH" : String).data ∧
    (∀ line ∈ (requestTokenRefresh demoCfg (HttpResult.ok demoRaw)
        "RT-SECRET-0123456789-ABCDEFGH").logs,
      ¬ ("RT-SECRET-0123456789-ABCDEFGH" : String).data <:+: line.data ∧
      ¬ ("ACCESS-TOKEN-FROM-PROVIDER-1" : String).data <:+: line.data ∧
      ¬ ("REFRESH-TOKEN-FROM-PROVIDER" : String).data <:+: line.data) ∧
    ("🚨 The refresh token that failed was: " ++ "RT-SECRET-0123456789-ABCDEFGH")
      ∈ (requestTokenRefresh demoCfg (HttpResult.httpError 401 "invalid_grant")
          "RT-SECRET-0123456789-ABCDEFGH").logs ∧
    ("  LIGHTSPEED_REFRESH_TOKEN=" ++ "REFRESH-TOKEN-FROM-PROVIDER")
      ∈ (updateTokens none demoCipher demoIv1 demoIv2 0 1
          (some "ACCESS-TOKEN-FROM-PROVIDER-1") (some "REFRESH-TOKEN-FROM-PROVIDER")
          (some 3600) []).logs :=
  ⟨by decide, by decide,
   (c8_amended_truncation_and_failure_logs demoCfg "client-id" "client-secret"
     "RT-SECRET-0123456789-ABCDEFGH" "ACCESS-TOKEN-FROM-PROVIDER-1"
     "REFRESH-TOKEN-FROM-PROVIDER" "invalid_grant" "ECONNRESET"
     "TOKEN_ENCRYPTION_KEY environment variable is required" 401 none demoCipher
     demoIv1 demoIv2 0 1 "ACCESS-TOKEN-FROM-PROVIDER-1" "REFRESH-TOKEN-FROM-PROVIDER"
     (some 3600) [] 1 demoRaw rfl rfl rfl rfl (by decide) (by decide) (by decide)
     (by decide) (by decide) (by decide) rfl).2.1,
   (c8_amended_truncation_and_failure_logs demoCfg "client-id" "client-secret"
     "RT-SECRET-0123456789-ABCDEFGH" "ACCESS-TOKEN-FROM-PROVIDER-1"
     "REFRESH-TOKEN-FROM-PROVIDER" "invalid_grant" "ECONNRESET"
     "TOKEN_ENCRYPTION_KEY environment variable is required" 401 none demoCipher
     demoIv1 demoIv2 0 1 "ACCESS-TOKEN-FROM-PROVIDER-1" "REFRESH-TOKEN-FROM-PROVIDER"
     (some 3600) [] 1 demoRaw rfl rfl rfl rfl (by decide) (by decide) (by decide)
     (by decide) (by decide) (by decide) rfl).2.2.1,
   (c8_amended_truncation_and_failure_logs demoCfg "client-id" "client-secret"
     "RT-SECRET-0123456789-ABCDEFGH" "ACCESS-TOKEN-FROM-PROVIDER-1"
     "REFRESH-TOKEN-FROM-PROVIDER" "invalid_grant" "ECONNRESET"
     "TOKEN_ENCRYPTION_KEY environment variable is required" 401 none demoCipher
     demoIv1 demoIv2 0 1 "ACCESS-TOKEN-FROM-PROVIDER-1" "REFRESH-TOKEN-FROM-PROVIDER"
     (some 3600) [] 1 demoRaw rfl rfl rfl rfl (by decide) (by decide) (by decide)
     (by decide) (by decide) (by decide) rfl).2.2.2.2.2.2.1⟩

end LightspeedTokenService
